import Mathlib

/-!
Shallow embedding of `fetch_data.py` (Colorado snow-course downloader).

Python strings are modelled as Lean `String`; `str.split(sep)` and
`str.startswith(pat)` are modelled by the structurally recursive functions
`py_split` and `starts_with` below, which follow Python's semantics for a
single-character separator.  A missing tabular value (pandas `NaN`) is
modelled as `none` in `Cell := Option String`; `pd.read_csv` treats an
empty field as missing.  Fallible Python code (exceptions) is modelled
with `Except String`, the error string naming the Python exception.
-/

/-- A tabular cell: `none` models a pandas `NaN` (missing value). -/
abbrev Cell := Option String

/-- Splits a character list at every occurrence of `sep`, following
Python `str.split(sep)`: the result always has one more part than there
are separators, and the empty string splits to `[""]`. -/
def split_char (sep : Char) : List Char → List (List Char)
  | [] => [[]]
  | c :: cs =>
    let r := split_char sep cs
    if c = sep then [] :: r
    else
      match r with
      | [] => [[c]]
      | h :: t => (c :: h) :: t

/-- Python `s.split(sep)` for a one-character separator. -/
def py_split (s : String) (sep : Char) : List String :=
  (split_char sep s.data).map (fun l => ⟨l⟩)

/-- Checks that `pat` is a leading segment of `s` (on character lists). -/
def leads : List Char → List Char → Bool
  | [], _ => true
  | _ :: _, [] => false
  | p :: ps, c :: cs => p = c && leads ps cs

/-- Python `s.startswith(pat)`. -/
def starts_with (s pat : String) : Bool :=
  leads pat.data s.data

/-- A pandas DataFrame, reduced to what the script uses: an ordered list
of column names and rows of cells (each row as long as the column list). -/
structure DataFrame where
  columns : List String
  rows : List (List Cell)
deriving DecidableEq

/-- A CSV field as read by `pd.read_csv`: an empty field is missing. -/
def parse_field (s : String) : Cell :=
  if s = "" then none else some s

/-- Tokenizes one data line against a header of `n` columns, as the
`pd.read_csv` tokenizer does: a line with more fields than the header is
a parse error, a shorter line is right-padded with missing values. -/
def tokenize_row (n : Nat) (line : String) : Except String (List Cell) :=
  let fields := py_split line ','
  if fields.length ≤ n then
    .ok (fields.map parse_field ++ List.replicate (n - fields.length) none)
  else
    .error "ParserError: too many fields"

/-- Tokenizes the data lines in order, stopping at the first bad line. -/
def tokenize_rows (n : Nat) : List String → Except String (List (List Cell))
  | [] => .ok []
  | l :: rest =>
    match tokenize_row n l with
    | .error e => .error e
    | .ok r =>
      match tokenize_rows n rest with
      | .error e => .error e
      | .ok rs => .ok (r :: rs)

/-- Models `pd.read_csv(StringIO(text), header=0)` applied to the joined
lines (the script joins with a newline and the reader splits again, so
the reader is modelled directly on the line list): blank lines are
skipped, the first remaining line is the header and fixes the column
count, the rest are data rows. -/
def read_csv (lines : List String) : Except String DataFrame :=
  match lines.filter (fun l => l ≠ "") with
  | [] => .error "EmptyDataError: No columns to parse from file"
  | header :: body =>
    match tokenize_rows (py_split header ',').length body with
    | .error e => .error e
    | .ok rows => .ok { columns := py_split header ',', rows := rows }

/-- Position of a column name in a column list (`pandas` label lookup). -/
def name_pos (name : String) : List String → Option Nat
  | [] => none
  | c :: rest => if c = name then some 0 else (name_pos name rest).map (· + 1)

/-- Models `df.columns = names`: pandas raises `ValueError` when the
assigned name list does not match the existing column count. -/
def set_columns (df : DataFrame) (names : List String) : Except String DataFrame :=
  if df.columns.length = names.length then
    .ok { columns := names, rows := df.rows }
  else
    .error "ValueError: Length mismatch"

/-- Models `df['station'] = station`: appends a constant new column. -/
def add_station (df : DataFrame) (station : String) : DataFrame :=
  { columns := df.columns ++ ["station"],
    rows := df.rows.map (fun r => r ++ [some station]) }

/-- Models `df = df[df[name].notna()]`: keeps the rows whose cell in the
named column is present; unknown labels raise `KeyError`. -/
def filter_notna_col (df : DataFrame) (name : String) : Except String DataFrame :=
  match name_pos name df.columns with
  | none => .error ("KeyError: " ++ name)
  | some i => .ok { df with rows := df.rows.filter (fun r => (r.getD i none).isSome) }

/-- The month names of `parse_snow_data` (source line 90). -/
def month_names : List String := ["Jan", "Feb", "Mar", "Apr", "May", "Jun"]

/-- The 19 column names built by `parse_snow_data` (source lines 91-98):
`water_year` followed by a `_date`, `_snow_depth_in`, `_swe_in` triple
for each of the six months. -/
def new_columns : List String :=
  "water_year" :: month_names.flatMap (fun m =>
    [m ++ "_date", m ++ "_snow_depth_in", m ++ "_swe_in"])

/-- Scans the line list for the first line starting with the marker
`"Water Year,"` (source lines 72-76) and, when found, returns that line
together with the lines two positions after it (source line 82 keeps
`lines[data_start]` and `lines[data_start + 2:]`, skipping the
measurement-description line). -/
def find_data_start : List String → Option (String × List String)
  | [] => none
  | l :: rest =>
    if starts_with l "Water Year," then some (l, rest.drop 1)
    else find_data_start rest

/-- Embedding of `parse_snow_data(raw_data, station)` (source lines
64-108).  A falsy `raw_data` (absent, or the empty string) and a missing
marker line both return an absent result; downstream pandas errors
(tokenizer errors, the column-count mismatch of `df.columns =
new_columns`) propagate as exceptions. -/
def parse_snow_data (raw_data : Option String) (station : String) :
    Except String (Option DataFrame) :=
  match raw_data with
  | none => .ok none
  | some raw =>
    if raw = "" then .ok none
    else
      match find_data_start (py_split raw '\n') with
      | none => .ok none
      | some (header, rest) =>
        match read_csv (header :: rest) with
        | .error e => .error e
        | .ok df =>
          match set_columns df new_columns with
          | .error e => .error e
          | .ok df1 =>
            match filter_notna_col (add_station df1 station) "water_year" with
            | .error e => .error e
            | .ok df2 => .ok (some df2)

/-- Outcome of the HTTP GET issued by `download_site_data`: either the
request machinery raised (timeout, connection error, ...) or a response
with a status code and a body came back. -/
inductive ReqOutcome where
  | exc (msg : String)
  | resp (status : Nat) (text : String)
deriving DecidableEq

/-- Models `response.raise_for_status()`: raises `HTTPError` exactly
for the client-error range 400-499 and the server-error range 500-599;
any other status code returns normally. -/
def raise_for_status (status : Nat) : Except String Unit :=
  if 400 ≤ status ∧ status < 600 then
    .error ("HTTPError: " ++ toString status)
  else
    .ok ()

/-- Embedding of `download_site_data(site_num)` (source lines 50-62).
The network is abstracted by the `outcome` argument.  Returns the
response text on success and, on any exception, an absent result paired
with the printed error line (second component: the log). -/
def download_site_data (site_num : String) (outcome : ReqOutcome) :
    Option String × List String :=
  match outcome with
  | .exc e => (none, ["Error downloading (" ++ site_num ++ "): " ++ e])
  | .resp status text =>
    match raise_for_status status with
    | .error e => (none, ["Error downloading (" ++ site_num ++ "): " ++ e])
    | .ok _ => (some text, [])

/-- The six months `pivot_to_long_format` iterates over (source line
126), as an enumeration; `month_label` gives the source's string form. -/
inductive Month where
  | jan | feb | mar | apr | may | jun
deriving DecidableEq

/-- The string label of a month, as it appears in the source lists. -/
def month_label : Month → String
  | .jan => "Jan"
  | .feb => "Feb"
  | .mar => "Mar"
  | .apr => "Apr"
  | .may => "May"
  | .jun => "Jun"

/-- The iteration order of the `for month in months` loop (line 126). -/
def months : List Month := [.jan, .feb, .mar, .apr, .may, .jun]

/-- One month's measurement triplet of a wide row: the columns
`{month}_date`, `{month}_snow_depth_in`, `{month}_swe_in`. -/
structure MonthTriple where
  date : Cell
  snow_depth_in : Cell
  swe_in : Cell
deriving DecidableEq

/-- A wide-format row carrying exactly the columns
`pivot_to_long_format` selects from its input frame: the six identifier
columns of `id_cols` (line 123) and one measurement triplet per month. -/
structure WideRow where
  water_year : Cell
  station : Cell
  site_name : Cell
  county : Cell
  latitude : Cell
  longitude : Cell
  jan : MonthTriple
  feb : MonthTriple
  mar : MonthTriple
  apr : MonthTriple
  may : MonthTriple
  jun : MonthTriple
deriving DecidableEq

/-- Selects a month's triplet of columns from a wide row: the embedding
of the label-based selection `df[[f'{month}_date', ...]]` (lines 134-143)
for the six month labels the loop uses. -/
def month_triple (r : WideRow) : Month → MonthTriple
  | .jan => r.jan
  | .feb => r.feb
  | .mar => r.mar
  | .apr => r.apr
  | .may => r.may
  | .jun => r.jun

/-- A long-format row: the identifier columns, the month label, and the
three renamed measurement columns, in the output order of line 160.  The
transient `month_num` sort key (lines 165-167) is added and dropped
again by the source, so it is no field of the final row. -/
structure LongRow where
  water_year : Cell
  station : Cell
  site_name : Cell
  county : Cell
  latitude : Cell
  longitude : Cell
  month : String
  collection_date : Cell
  snow_depth_in : Cell
  swe_in : Cell
deriving DecidableEq

/-- The `month_order` dictionary of line 164, as a partial map on month
labels (`df['month'].map(month_order)` yields `NaN` off the six keys). -/
def month_order_map (m : String) : Option Nat :=
  if m = "Jan" then some 1
  else if m = "Feb" then some 2
  else if m = "Mar" then some 3
  else if m = "Apr" then some 4
  else if m = "May" then some 5
  else if m = "Jun" then some 6
  else none

/-- A sort-key component built from one cell: string cells compare
lexicographically by character, and pandas `sort_values` places missing
values last, so `none` maps to the top element. -/
def cell_key (c : Cell) : WithTop (List Char) :=
  match c with
  | none => ⊤
  | some s => (s.data : List Char)

/-- The numeric month key of line 165; a label outside the dictionary
becomes `NaN`, which sorts last. -/
def month_num_key (m : String) : WithTop Nat :=
  match month_order_map m with
  | none => ⊤
  | some n => (n : WithTop Nat)

/-- The lexicographic sort key of line 166:
`sort_values(['county', 'station', 'water_year', 'month_num'])`. -/
def sort_key (r : LongRow) :
    Lex (WithTop (List Char) ×
      Lex (WithTop (List Char) × Lex (WithTop (List Char) × WithTop Nat))) :=
  toLex (cell_key r.county,
    toLex (cell_key r.station,
      toLex (cell_key r.water_year, month_num_key r.month)))

/-- The row ordering realised by the `sort_values` call of line 166. -/
def row_le (a b : LongRow) : Prop :=
  sort_key a ≤ sort_key b

instance : DecidableRel row_le :=
  fun a b => inferInstanceAs (Decidable (sort_key a ≤ sort_key b))

instance : IsTotal LongRow row_le :=
  ⟨fun a b => le_total (sort_key a) (sort_key b)⟩

instance : IsTrans LongRow row_le :=
  ⟨fun _ _ _ hab hbc => le_trans hab hbc⟩

/-- One month's sub-table (loop body, lines 131-154): project the
identifier columns and the month's triplet, rename the triplet to the
common names, tag the month label, and drop the rows whose three
measurement cells are all missing (`dropna(subset=..., how='all')`). -/
def month_sub_table (df : List WideRow) (m : Month) : List LongRow :=
  (df.map (fun r =>
    { water_year := r.water_year
      station := r.station
      site_name := r.site_name
      county := r.county
      latitude := r.latitude
      longitude := r.longitude
      month := month_label m
      collection_date := (month_triple r m).date
      snow_depth_in := (month_triple r m).snow_depth_in
      swe_in := (month_triple r m).swe_in })).filter
    (fun lr => lr.collection_date.isSome || lr.snow_depth_in.isSome || lr.swe_in.isSome)

/-- Embedding of `pivot_to_long_format(df)` (source lines 110-169):
concatenate the six per-month sub-tables (`pd.concat`, line 157; the
column reorder of line 160 is the identity on `LongRow`) and sort by
county, station, water year and numeric month order (lines 163-167).
The sort is modelled by a stable insertion sort realising the
`sort_values` key order. -/
def pivot_to_long_format (df : List WideRow) : List LongRow :=
  List.insertionSort row_le ((months.map (month_sub_table df)).flatten)

/-- One station record scraped by `get_colorado_sites` (lines 40-46):
the dict keys are `station`, `site_name`, `latitude`, `longitude`,
`county`. -/
structure SiteRec where
  station : String
  site_name : String
  latitude : String
  longitude : String
  county : String
deriving DecidableEq

/-- Label-based access to a row of the sites frame (a pandas `Series`
from `iterrows`): any label other than the five scraped columns raises
`KeyError`. -/
def series_get (r : SiteRec) (key : String) : Except String String :=
  if key = "station" then .ok r.station
  else if key = "site_name" then .ok r.site_name
  else if key = "latitude" then .ok r.latitude
  else if key = "longitude" then .ok r.longitude
  else if key = "county" then .ok r.county
  else .error ("KeyError: " ++ key)

/-- The per-station loop of `download_all_colorado_sites` (lines
177-195).  The body first evaluates `row['site_num']` (line 180), which
raises `KeyError` because the sites frame has no such column; were that
read to succeed, the next effectful line, `download_site_data(site_num,
site_name)` (line 185), would raise `TypeError`, since
`download_site_data` takes a single positional argument.  Either way the
body raises before issuing any request, so the network argument `fetch`
is never consulted. -/
def run_station_loop (fetch : String → ReqOutcome) :
    List SiteRec → Except String (List DataFrame)
  | [] => .ok []
  | row :: _rest =>
    let _ := fetch
    match series_get row "site_num" with
    | .error e => .error e
    | .ok _site_num =>
      .error "TypeError: download_site_data() takes 1 positional argument but 2 were given"

/-- Models `pd.concat(all_data, ignore_index=True)` for frames sharing
one column list: the rows are concatenated in order. -/
def concat_frames (frames : List DataFrame) : DataFrame :=
  { columns := (frames.headD { columns := [], rows := [] }).columns,
    rows := (frames.map DataFrame.rows).flatten }

/-- Embedding of `download_all_colorado_sites(save_path, delay)` (lines
171-206).  The discovered sites and the network are arguments; the
result pairs the returned value (`combined_df` or an absent result) with
the list of files written by `to_csv` (path and content).  The fixed
inter-station sleep has no observable effect in the model. -/
def download_all_colorado_sites (sites : List SiteRec)
    (fetch : String → ReqOutcome) (save_path : String) :
    Except String (Option DataFrame × List (String × DataFrame)) :=
  match run_station_loop fetch sites with
  | .error e => .error e
  | .ok all_data =>
    if all_data ≠ [] then
      let combined := concat_frames all_data
      .ok (some combined, [(save_path, combined)])
    else
      .ok (none, [])

/-! Helper lemmas. -/

/-- A line list on which no line carries the marker yields no data start. -/
theorem find_data_start_eq_none :
    ∀ {ls : List String}, (∀ l ∈ ls, starts_with l "Water Year," = false) →
      find_data_start ls = none := by
  intro ls
  induction ls with
  | nil => intro _; rfl
  | cons l rest ih =>
    intro h
    have hl := h l (List.mem_cons_self l rest)
    simp only [find_data_start, hl, Bool.false_eq_true, if_false]
    exact ih (fun x hx => h x (List.mem_cons_of_mem l hx))

/-- When the marker search succeeds the raw text cannot be empty. -/
theorem raw_ne_empty_of_find {raw : String} {pr : String × List String}
    (h1 : find_data_start (py_split raw '\n') = some pr) : raw ≠ "" := by
  intro e
  rw [e] at h1
  rw [show find_data_start (py_split "" '\n') = none from by decide] at h1
  simp at h1

/-- A successfully tokenized row has exactly the header's column count. -/
theorem tokenize_row_length {n : Nat} {line : String} {r : List Cell}
    (h : tokenize_row n line = .ok r) : r.length = n := by
  simp only [tokenize_row] at h
  split at h
  · rename_i hle
    injection h with h
    subst h
    simp only [List.length_append, List.length_map, List.length_replicate]
    omega
  · exact Except.noConfusion h

/-- All successfully tokenized rows have the header's column count. -/
theorem tokenize_rows_length {n : Nat} :
    ∀ {ls : List String} {rs : List (List Cell)}, tokenize_rows n ls = .ok rs →
      ∀ r ∈ rs, r.length = n := by
  intro ls
  induction ls with
  | nil =>
    intro rs h r hr
    simp only [tokenize_rows] at h
    injection h with h
    subst h
    simp at hr
  | cons l rest ih =>
    intro rs h r hr
    simp only [tokenize_rows] at h
    split at h
    · exact Except.noConfusion h
    · rename_i row hrow
      split at h
      · exact Except.noConfusion h
      · rename_i rows hrows
        injection h with h
        subst h
        rcases List.mem_cons.mp hr with he | hm
        · subst he
          exact tokenize_row_length hrow
        · exact ih hrows r hm

/-- Every row of a frame produced by `read_csv` is as long as its column
list. -/
theorem read_csv_rows_length {lines : List String} {df : DataFrame}
    (h : read_csv lines = .ok df) : ∀ r ∈ df.rows, r.length = df.columns.length := by
  simp only [read_csv] at h
  split at h
  · exact Except.noConfusion h
  · rename_i header body heq
    split at h
    · exact Except.noConfusion h
    · rename_i rows hrows
      injection h with h
      subst h
      intro r hr
      exact tokenize_rows_length hrows r hr

/-! Claim theorems. -/

/-- C3: for every station identifier, when the GET raises any request
exception (timeout or connection error, modelled by `ReqOutcome.exc`) or
the response status makes `raise_for_status` raise (the 400-599 error
ranges), `download_site_data` returns an absent result together with a
logged error line instead of propagating; on a 2xx response it returns
the raw response text. -/
theorem download_site_data_spec (site : String) (o : ReqOutcome) :
    (∀ e, o = .exc e →
      (download_site_data site o).1 = none ∧ (download_site_data site o).2 ≠ []) ∧
    (∀ s t, o = .resp s t → 400 ≤ s → s < 600 →
      (download_site_data site o).1 = none ∧ (download_site_data site o).2 ≠ []) ∧
    (∀ s t, o = .resp s t → 200 ≤ s → s < 300 →
      (download_site_data site o).1 = some t) := by
  refine ⟨?_, ?_, ?_⟩
  · intro e he
    subst he
    simp [download_site_data]
  · intro s t ho hs h600
    subst ho
    simp [download_site_data, raise_for_status, if_pos (And.intro hs h600)]
  · intro s t ho _ h300
    subst ho
    have hno : ¬ (400 ≤ s ∧ s < 600) := by omega
    simp [download_site_data, raise_for_status, if_neg hno]

/-- Witness for C3 at a timeout, a 503 response and a 200 response. -/
theorem download_site_data_spec_witness :
    (download_site_data "303" (.exc "timeout")).1 = none ∧
    (download_site_data "303" (.resp 503 "oops")).1 = none ∧
    (download_site_data "303" (.resp 200 "report")).1 = some "report" :=
  ⟨((download_site_data_spec "303" (.exc "timeout")).1 "timeout" rfl).1,
   ((download_site_data_spec "303" (.resp 503 "oops")).2.1 503 "oops" rfl
     (by omega) (by omega)).1,
   (download_site_data_spec "303" (.resp 200 "report")).2.2 200 "report" rfl
     (by omega) (by omega)⟩

/-- C4: when no line of the raw report starts with the marker
`"Water Year,"`, `parse_snow_data` returns an absent result and raises
no exception. -/
theorem parse_snow_data_no_marker (raw station : String)
    (h : ∀ l ∈ py_split raw '\n', starts_with l "Water Year," = false) :
    parse_snow_data (some raw) station = .ok none := by
  by_cases hraw : raw = ""
  · subst hraw
    simp [parse_snow_data]
  · simp only [parse_snow_data, if_neg hraw, find_data_start_eq_none h]

/-- Witness for C4 on a report with no marker line. -/
theorem parse_snow_data_no_marker_witness :
    parse_snow_data (some "nonsense report\nno marker here") "1060" = .ok none :=
  parse_snow_data_no_marker _ "1060" (by decide)

/-- C10: a falsy `raw_data` argument, the absent result of a failed
download as well as an empty response body, makes `parse_snow_data`
return an absent result without parsing. -/
theorem parse_snow_data_falsy (station : String) :
    parse_snow_data none station = .ok none ∧
    parse_snow_data (some "") station = .ok none := by
  constructor
  · rfl
  · simp [parse_snow_data]

deriving instance DecidableEq for Except

/-- A network in which every request raises; the aggregator never
consults its network argument before raising, so any value works for
evaluating the runs below. -/
def fetch_none : String → ReqOutcome := fun _ => .exc "unreachable"

/-- C9: a completed run whose per-station data list is empty returns an
absent result and writes no output file. -/
theorem download_all_no_data_spec (sites : List SiteRec)
    (fetch : String → ReqOutcome) (save_path : String)
    (h : run_station_loop fetch sites = .ok []) :
    download_all_colorado_sites sites fetch save_path = .ok (none, []) := by
  unfold download_all_colorado_sites
  rw [h]
  simp

/-- Witness for C9: the run over an empty site directory. -/
theorem download_all_no_data_spec_witness :
    download_all_colorado_sites [] fetch_none "colorado_snow_data.csv" = .ok (none, []) :=
  download_all_no_data_spec [] fetch_none "colorado_snow_data.csv" rfl

/-- A directory listing with a single discovered station. -/
def c1_sites : List SiteRec :=
  [{ station := "303", site_name := "Berthoud Pass", latitude := "39.80",
     longitude := "-105.78", county := "Clear Creek" }]

/-- C1: evaluating the aggregator on a discovered station shows the run
raising `KeyError` at `row['site_num']` (the sites frame's column is
named `station`), before the downloader, the wide parser or the
long-format pivot is ever invoked and before any output row is written;
`pivot_to_long_format` is moreover called nowhere in the module, so the
per-station frames the aggregator would combine are the wide ones. -/
theorem download_all_crashes_on_first_station :
    download_all_colorado_sites c1_sites fetch_none "colorado_snow_data.csv"
      = .error "KeyError: site_num" := by decide

/-- A directory listing with three discovered stations. -/
def c2_sites : List SiteRec :=
  [{ station := "303", site_name := "Berthoud Pass", latitude := "39.80",
     longitude := "-105.78", county := "Clear Creek" },
   { station := "1060", site_name := "Grizzly Peak", latitude := "39.64",
     longitude := "-105.87", county := "Summit" },
   { station := "485", site_name := "Hoosier Pass", latitude := "39.36",
     longitude := "-106.06", county := "Park" }]

/-- A network on which exactly one of the three stations' downloads
fails and the other two succeed. -/
def c2_fetch : String → ReqOutcome := fun s =>
  if s = "1060" then .exc "ConnectTimeout" else .resp 200 "report"

/-- C2: on a three-station directory where exactly one station's
download would fail, the run does not complete and combine the other two
stations' data: it raises `KeyError` at the first station, before any
download is attempted. -/
theorem download_all_three_sites_crashes :
    download_all_colorado_sites c2_sites c2_fetch "colorado_snow_data.csv"
      = .error "KeyError: site_num" := by decide

/-- C7: no row of the long table has `collection_date`, `snow_depth_in`
and `swe_in` simultaneously absent: each per-month sub-table drops such
rows before the concatenation, and the final sort only permutes rows. -/
theorem pivot_no_all_missing (df : List WideRow) (r : LongRow)
    (h : r ∈ pivot_to_long_format df) :
    ¬ (r.collection_date = none ∧ r.snow_depth_in = none ∧ r.swe_in = none) := by
  unfold pivot_to_long_format at h
  rw [List.mem_insertionSort] at h
  rw [List.mem_flatten] at h
  obtain ⟨l, hl, hr⟩ := h
  rw [List.mem_map] at hl
  obtain ⟨m, -, rfl⟩ := hl
  unfold month_sub_table at hr
  rw [List.mem_filter] at hr
  obtain ⟨-, hp⟩ := hr
  rintro ⟨h1, h2, h3⟩
  rw [h1, h2, h3] at hp
  simp at hp

/-- A month triplet with all three measurements missing. -/
def empty_triple : MonthTriple :=
  { date := none, snow_depth_in := none, swe_in := none }

/-- A wide row carrying measurements for January and April only. -/
def demo_wide : WideRow :=
  { water_year := some "1980", station := some "303", site_name := some "Berthoud Pass",
    county := some "Clear Creek", latitude := some "39.80", longitude := some "-105.78",
    jan := { date := some "1980-01-30", snow_depth_in := some "44", swe_in := some "12.4" },
    feb := empty_triple, mar := empty_triple,
    apr := { date := some "1980-04-01", snow_depth_in := some "60", swe_in := some "20.1" },
    may := empty_triple, jun := empty_triple }

/-- The January long row produced from `demo_wide`. -/
def demo_jan : LongRow :=
  { water_year := some "1980", station := some "303", site_name := some "Berthoud Pass",
    county := some "Clear Creek", latitude := some "39.80", longitude := some "-105.78",
    month := "Jan", collection_date := some "1980-01-30",
    snow_depth_in := some "44", swe_in := some "12.4" }

/-- The April long row produced from `demo_wide`. -/
def demo_apr : LongRow :=
  { water_year := some "1980", station := some "303", site_name := some "Berthoud Pass",
    county := some "Clear Creek", latitude := some "39.80", longitude := some "-105.78",
    month := "Apr", collection_date := some "1980-04-01",
    snow_depth_in := some "60", swe_in := some "20.1" }

/-- Witness for C7: the January row of the demo table is in the output
and has its measurements present. -/
theorem pivot_no_all_missing_witness :
    ¬ (demo_jan.collection_date = none ∧ demo_jan.snow_depth_in = none ∧
        demo_jan.swe_in = none) :=
  pivot_no_all_missing [demo_wide] demo_jan (by decide)

/-- C8: the pivot output is sorted by county, then station, then water
year, then the fixed numeric month order `Jan=1, ..., Jun=6` of
`month_order_map` (the transient numeric key is no column of the output
row type); on a row with January and April data the January row comes
first, although `"Apr"` precedes `"Jan"` lexically, because the April
sort key is the strictly larger one. -/
theorem pivot_sorted :
    (∀ df : List WideRow, List.Sorted row_le (pivot_to_long_format df)) ∧
    pivot_to_long_format [demo_wide] = [demo_jan, demo_apr] ∧
    sort_key demo_jan < sort_key demo_apr :=
  ⟨fun _ => List.sorted_insertionSort row_le _, by decide, by decide⟩

/-- The `water_year` cells of a frame whose first column is `water_year`. -/
def first_column (df : DataFrame) : List Cell :=
  df.rows.map (fun r => r.getD 0 none)

/-- Appending the station cell and filtering on a present first cell
commutes with reading the first cells, on nonempty rows. -/
theorem first_column_station_filter (rows : List (List Cell)) (station : String)
    (hne : ∀ r ∈ rows, r ≠ []) :
    ((rows.map (fun r => r ++ [some station])).filter
        (fun r => (r.getD 0 none).isSome)).map (fun r => r.getD 0 none)
      = (rows.map (fun r => r.getD 0 none)).filter (fun c => c.isSome) := by
  induction rows with
  | nil => rfl
  | cons a l ih =>
    have ha : a ≠ [] := hne a (List.mem_cons_self a l)
    have hg : (a ++ [some station]).getD 0 none = a.getD 0 none := by
      cases a with
      | nil => exact absurd rfl ha
      | cons x xs => rfl
    have ih' := ih (fun r hr => hne r (List.mem_cons_of_mem a hr))
    simp only [List.map_cons, List.filter_cons, hg]
    cases hc : (a.getD 0 none).isSome
    · rw [if_neg (fun h => Bool.false_ne_true h), if_neg (fun h => Bool.false_ne_true h)]
      exact ih'
    · rw [if_pos rfl, if_pos rfl, List.map_cons, hg]
      exact congrArg (a.getD 0 none :: ·) ih'

/-- Evaluation of `parse_snow_data` on a report whose marker is found
and whose data block tokenizes to a 19-column frame: the parser renames
the columns, appends the station column and drops the rows with an
absent water year. -/
theorem parse_snow_data_eval (raw station header : String) (rest : List String)
    (df0 : DataFrame)
    (h1 : find_data_start (py_split raw '\n') = some (header, rest))
    (h2 : read_csv (header :: rest) = .ok df0)
    (h3 : df0.columns.length = 19) :
    parse_snow_data (some raw) station = .ok (some
      { columns := new_columns ++ ["station"],
        rows := (df0.rows.map (fun r => r ++ [some station])).filter
          (fun r => (r.getD 0 none).isSome) }) := by
  have hraw : raw ≠ "" := raw_ne_empty_of_find h1
  have hset : set_columns df0 new_columns
      = .ok { columns := new_columns, rows := df0.rows } := by
    unfold set_columns
    rw [if_pos (by rw [h3]; rfl)]
  have hpos : name_pos "water_year" (new_columns ++ ["station"]) = some 0 := by decide
  simp only [parse_snow_data, if_neg hraw, h1, h2, hset, filter_notna_col,
    add_station, hpos]

/-- The shape facts of the wide table `df` built from the tokenized
frame `df0`: the renamed columns plus the station column (20 in all),
and first-column (water-year) cells that are exactly the present
water-year cells of the source rows, in order and in multiplicity. -/
def wide_shape_ok (df df0 : DataFrame) : Prop :=
  df.columns = new_columns ++ ["station"] ∧
  df.columns.length = 20 ∧
  first_column df = (first_column df0).filter (fun c => c.isSome) ∧
  (∀ wy : String, (first_column df).count (some wy) = (first_column df0).count (some wy)) ∧
  (first_column df).count none = 0 ∧
  df.rows.length = ((first_column df0).filter (fun c => c.isSome)).length

/-- The parser's output frame satisfies the shape facts over its
tokenized source frame. -/
theorem wide_shape_ok_of (df0 : DataFrame) (station : String)
    (hne : ∀ r ∈ df0.rows, r ≠ []) :
    wide_shape_ok
      { columns := new_columns ++ ["station"],
        rows := (df0.rows.map (fun r => r ++ [some station])).filter
          (fun r => (r.getD 0 none).isSome) } df0 := by
  have hfc : first_column
      { columns := new_columns ++ ["station"],
        rows := (df0.rows.map (fun r => r ++ [some station])).filter
          (fun r => (r.getD 0 none).isSome) }
      = (first_column df0).filter (fun c => c.isSome) := by
    unfold first_column
    exact first_column_station_filter df0.rows station hne
  refine ⟨rfl, ?_, hfc, ?_, ?_, ?_⟩
  · show (new_columns ++ ["station"]).length = 20
    decide
  · intro wy
    rw [hfc]
    exact List.count_filter rfl
  · rw [hfc, List.count_eq_zero]
    intro hmem
    exact absurd (List.mem_filter.mp hmem).2 (by simp)
  · have hlen := congrArg List.length hfc
    simpa [first_column] using hlen

/-- C5, amended: on a well-formed report (marker found, data block
tokenizing to the 19 expected columns) the wide table has one row per
water year present in the source, rows with an absent water year are
dropped, and the table has 20 columns: `water_year`, the six monthly
date, snow depth and SWE triples, plus the station identifier column. -/
theorem parse_snow_data_wide_shape (raw station header : String) (rest : List String)
    (df0 : DataFrame)
    (h1 : find_data_start (py_split raw '\n') = some (header, rest))
    (h2 : read_csv (header :: rest) = .ok df0)
    (h3 : df0.columns.length = 19) :
    ∃ df, parse_snow_data (some raw) station = .ok (some df) ∧ wide_shape_ok df df0 := by
  have hne : ∀ r ∈ df0.rows, r ≠ [] := by
    intro r hr
    have hl := read_csv_rows_length h2 r hr
    rw [h3] at hl
    intro he
    rw [he] at hl
    simp at hl
  exact ⟨_, parse_snow_data_eval raw station header rest df0 h1 h2 h3,
    wide_shape_ok_of df0 station hne⟩

/-- A well-formed raw report: a preamble line, the 19-field marker line,
the measurement-description line, a data row for one water year and a
data row with an absent water year. -/
def wf_raw : String :=
  "preamble\nWater Year,a,b,c,d,e,f,g,h,i,j,k,l,m,n,o,p,q,r\nunits\n1980,,,,,,,,,,,,,,,,,,\n,,,,,,,,,,,,,,,,,,"

/-- The marker line of `wf_raw`. -/
def wf_header : String := "Water Year,a,b,c,d,e,f,g,h,i,j,k,l,m,n,o,p,q,r"

/-- The data lines of `wf_raw` after the skipped description line. -/
def wf_rest : List String := ["1980,,,,,,,,,,,,,,,,,,", ",,,,,,,,,,,,,,,,,,"]

/-- The frame `read_csv` tokenizes from `wf_raw`'s data block. -/
def wf_df0 : DataFrame :=
  { columns := ["Water Year", "a", "b", "c", "d", "e", "f", "g", "h", "i",
      "j", "k", "l", "m", "n", "o", "p", "q", "r"],
    rows := [some "1980" :: List.replicate 18 none, List.replicate 19 none] }

/-- Witness for C5 at the concrete well-formed report `wf_raw`. -/
theorem parse_snow_data_wide_shape_witness :
    ∃ df, parse_snow_data (some wf_raw) "303" = .ok (some df) ∧ wide_shape_ok df wf_df0 :=
  parse_snow_data_wide_shape wf_raw "303" wf_header wf_rest wf_df0
    (by decide) (by decide) (by decide)

/-- The column count of the wide table `parse_snow_data` returns, when
it returns one. -/
def parsed_ncols (raw_data : Option String) (station : String) : Option Nat :=
  match parse_snow_data raw_data station with
  | .ok (some df) => some df.columns.length
  | _ => none

/-- Counterexample to C5 as stated: on the well-formed report `wf_raw`
the wide table has 20 columns (water_year, the eighteen month columns
and the station column), not 19. -/
theorem parse_snow_data_not_nineteen_columns :
    parsed_ncols (some wf_raw) "303" = some 20 ∧
    parsed_ncols (some wf_raw) "303" ≠ some 19 := by
  constructor
  · decide
  · decide

/-- C6: when the data block after the marker line tokenizes to a frame
whose column count differs from the 19 expected fixed names, the column
assignment `df.columns = new_columns` raises, so `parse_snow_data`
fails loudly instead of returning a misaligned table. -/
theorem parse_snow_data_shape_mismatch (raw station header : String)
    (rest : List String) (df0 : DataFrame)
    (h1 : find_data_start (py_split raw '\n') = some (header, rest))
    (h2 : read_csv (header :: rest) = .ok df0)
    (h3 : df0.columns.length ≠ 19) :
    ∃ e, parse_snow_data (some raw) station = .error e := by
  have hraw : raw ≠ "" := raw_ne_empty_of_find h1
  have hset : set_columns df0 new_columns = .error "ValueError: Length mismatch" := by
    unfold set_columns
    rw [if_neg]
    intro he
    exact h3 (he.trans (by rfl))
  refine ⟨"ValueError: Length mismatch", ?_⟩
  simp only [parse_snow_data, if_neg hraw, h1, h2, hset]

/-- A report whose marker line has only two fields. -/
def mm_raw : String := "Water Year,Jan\ndesc\n2000,5"

/-- The two-column frame tokenized from `mm_raw`'s data block. -/
def mm_df0 : DataFrame :=
  { columns := ["Water Year", "Jan"], rows := [[some "2000", some "5"]] }

/-- Witness for C6 at the concrete malformed report `mm_raw`. -/
theorem parse_snow_data_shape_mismatch_witness :
    ∃ e, parse_snow_data (some mm_raw) "42" = .error e :=
  parse_snow_data_shape_mismatch mm_raw "42" "Water Year,Jan" ["2000,5"] mm_df0
    (by decide) (by decide) (by decide)
